import Mathlib

/-!
Shallow embedding of the `yfb` form-binding engine (crates `yfb` and
`yfb_derive`) and proofs about the claims of its specification.

Conventions of the embedding:
* Rust `AttrValue` is embedded as `String`.
* The shared per-root generation counter (`UseGenerationHandle`, a
  `Rc<Cell<usize>>`) is embedded by threading a `Nat` explicitly through
  every operation that may call `increase()`; an operation returns the new
  counter value alongside its result.  `increase()` maps to `g + 1`
  (`wrapping_add(1)` never wraps on `Nat`; the claims under study never
  exercise the wrap).
* Interior mutability through `Rc`/`RefCell` is embedded as explicit state
  passing; `Rc` sharing of `BindingValidation` nodes is embedded by an
  explicit node store addressed by `Nat` ids.
-/

namespace Yfb

/-! ## Field (src/yfb/src/field.rs)

`Field` is the leaf state node: text value, optional initial snapshot,
validation message, parse error, generation stamp.  The Rust struct also
stores a clone of the shared `UseGenerationHandle`; that shared counter is
threaded explicitly here instead of being duplicated inside each field. -/

structure Field where
  initial : Option String
  value : String
  message : Option String
  error : Option String
  generation : Nat
deriving Repr, DecidableEq

namespace Field

/-- `Field::set_value` (field.rs:47-59): no-op when the text equals the
current value; when it equals the stored initial, the initial allocation is
reused and the validation message cleared; the generation is bumped via the
shared handle whenever the value changes. -/
def set_value (f : Field) (value : String) (g : Nat) : Field × Nat :=
  if value ≠ f.value then
    match f.initial with
    | some initial =>
      if initial = value then
        ({ f with value := initial, message := none, generation := g + 1 }, g + 1)
      else
        ({ f with value := value, generation := g + 1 }, g + 1)
    | none => ({ f with value := value, generation := g + 1 }, g + 1)
  else
    (f, g)

/-- `Field::set_message` (field.rs:66-71). -/
def set_message (f : Field) (message : Option String) (g : Nat) : Field × Nat :=
  if f.message ≠ message then
    ({ f with message := message, generation := g + 1 }, g + 1)
  else
    (f, g)

/-- `Field::set_error` (field.rs:78-83). -/
def set_error (f : Field) (error : Option String) (g : Nat) : Field × Nat :=
  if f.error ≠ error then
    ({ f with error := error, generation := g + 1 }, g + 1)
  else
    (f, g)

/-- `State::create` for `Field` (field.rs:90-101); `value` is already the
text form (`to_value`) of the model value, the stamp is the handle's current
generation (no bump). -/
def create (value : String) (with_initial : Bool) (g : Nat) : Field :=
  { initial := if with_initial then some value else none
    value := value
    message := none
    error := none
    generation := g }

/-- `State::update` for `Field` (field.rs:103-105): `set_value(to_value model)`. -/
def update (f : Field) (modelText : String) (g : Nat) : Field × Nat :=
  f.set_value modelText g

/-- `Dirty for Field` (field.rs:112-119). -/
def dirty (f : Field) : Bool :=
  match f.initial with
  | some initial => initial ≠ f.value
  | none => !(f.value = "")

end Field

/-! ## Value coercion (src/yfb/src/model.rs, trait `Value`)

A `Value` instance for a scalar type `V`: `to_value`/`from_value` plus the
Rust `std::any::type_name` string used in parse-error messages. -/

structure ValueImpl (V : Type) where
  toValue : V → String
  fromValue : String → Option V
  typeName : String

/-- Rust `u32::from_str`: optional leading `'+'`, then one or more ASCII
digits, value below `2^32`; anything else fails. -/
def parseU32 (s : String) : Option Nat :=
  let digits := match s.data with
    | '+' :: rest => rest
    | cs => cs
  if digits = [] then none
  else if digits.all Char.isDigit then
    let n := digits.foldl (fun acc c => acc * 10 + (c.toNat - 48)) 0
    if n < 2 ^ 32 then some n else none
  else none

/-- The blanket `Value` impl instantiated at `u32` (model.rs:201-218):
`to_value = to_string`, `from_value = str::parse`. -/
def u32Impl : ValueImpl Nat :=
  { toValue := toString
    fromValue := parseU32
    typeName := "u32" }

/-- The blanket `Value` impl instantiated at `String`: `to_string` is the
identity and parsing never fails (`FromStr for String` is infallible). -/
def stringImpl : ValueImpl String :=
  { toValue := id
    fromValue := some
    typeName := "alloc::string::String" }

/-! ## FieldModifier (src/yfb/src/modifier.rs:131-165)

Embedded at the storage level: a leaf's storage cell holds the model value
`V` and its `Field` state; `set` and `set_value` transform both (the Rust
methods additionally call `self.validation().invalidate()` on the binding
chain, which is embedded separately below and does not touch the cell). -/

namespace FieldModifier

/-- `FieldModifier::set` (modifier.rs:135-157): parse the text; on success
write the parsed value into the model and the text into the state; on
failure record a parse-error message and leave model and value untouched.
Returns (model, field state, generation counter). -/
def set {V : Type} (impl : ValueImpl V) (model : V) (st : Field) (g : Nat)
    (value : String) : V × Field × Nat :=
  match impl.fromValue value with
  | some t =>
    let r := st.set_value value g
    (t, r.1, r.2)
  | none =>
    let r := st.set_error
      (some ("Invalid value '" ++ value ++ "' for type " ++ impl.typeName)) g
    (model, r.1, r.2)

/-- `FieldModifier::set_value` (modifier.rs:159-164). -/
def set_value {V : Type} (impl : ValueImpl V) (_model : V) (st : Field) (g : Nat)
    (value : V) : V × Field × Nat :=
  let r := st.set_value (impl.toValue value) g
  (value, r.1, r.2)

end FieldModifier

/-! ## VecState (src/yfb/src/model.rs:64-147)

Embedded for a vector of leaf values: the model is the list of the
elements' text forms (`to_value` images), each child state a `Field`.
The Rust struct also stores a clone of the shared generation handle used
when creating appended children; the counter is threaded explicitly. -/

structure VecState where
  initial_length : Nat
  valid_length : Nat
  current : List Field
deriving Repr, DecidableEq

/-- The in-place `self.current.iter_mut().zip(model)` loop of
`VecState::update`: recursively update the zipped prefix, threading the
generation counter; children beyond the model's length are untouched. -/
def zipUpdate : List Field → List String → Nat → List Field × Nat
  | [], _, g => ([], g)
  | fs, [], g => (fs, g)
  | f :: fs, m :: ms, g =>
    let r := f.update m g
    let rs := zipUpdate fs ms r.2
    (r.1 :: rs.1, rs.2)

namespace VecState

/-- `State::create` for `VecState` (model.rs:94-104). -/
def create (model : List String) (with_initial : Bool) (g : Nat) : VecState :=
  { valid_length := model.length
    initial_length := model.length
    current := model.map (fun m => Field.create m with_initial g) }

/-- `State::update` for `VecState` (model.rs:106-123): extend with
freshly-created (no-initial) children for model elements beyond the retained
length, truncate to `initial_length` when the model is at or below it, zip
the retained children against the model and update each, then set
`valid_length` to the model's length. -/
def update (s : VecState) (model : List String) (g : Nat) : VecState × Nat :=
  let cur := s.current ++
    (model.drop s.current.length).map (fun m => Field.create m false g)
  let cur := if model.length ≤ s.initial_length then cur.take s.initial_length else cur
  let r := zipUpdate cur model g
  ({ s with current := r.1, valid_length := model.length }, r.2)

/-- `Dirty for VecState` (model.rs:134-147). -/
def dirty (s : VecState) : Bool :=
  if s.valid_length ≠ s.initial_length then true
  else (s.current.take s.valid_length).any Field.dirty

end VecState

/-! ## Optional state (src/yfb/src/model.rs:149-185)

`Option<T>`'s state is `T::State`; for a leaf `T` that is a `Field`.
`create`/`update` delegate to the contained value when present, else to a
transient `T::default()` (with `with_initial = false` on create). -/

namespace OptionState

/-- `State::<Option<T>>::create` (model.rs:168-173) for a leaf `T`, with
`dflt` embedding `T::default()`. -/
def create {V : Type} (impl : ValueImpl V) (dflt : V) (model : Option V)
    (with_initial : Bool) (g : Nat) : Field :=
  match model with
  | some m => Field.create (impl.toValue m) with_initial g
  | none => Field.create (impl.toValue dflt) false g

/-- `State::<Option<T>>::update` (model.rs:175-180) for a leaf `T`. -/
def update {V : Type} (impl : ValueImpl V) (dflt : V) (st : Field)
    (model : Option V) (g : Nat) : Field × Nat :=
  match model with
  | some m => st.update (impl.toValue m) g
  | none => st.update (impl.toValue dflt) g

end OptionState

/-! ## OptionModifier (src/yfb/src/modifier.rs:65-84)

Embedded at the storage level for a leaf payload `T = V`: the parent cell
holds `Option V` and the child state `Field`.  (The Rust methods also call
`self.validation().invalidate()`; the chain is embedded separately.) -/

namespace OptionModifier

/-- `OptionModifier::take` (modifier.rs:69-75): `model.take()`, then update
the existing child state against the now-`None` model (which delegates to
`T::default()`), returning the removed value.
Result: (model, field state, generation counter, returned value). -/
def take {V : Type} (impl : ValueImpl V) (dflt : V) (m : Option V) (st : Field)
    (g : Nat) : Option V × Field × Nat × Option V :=
  let tmp := m
  let r := OptionState.update impl dflt st none g
  (none, r.1, r.2, tmp)

/-- `OptionModifier::replace` (modifier.rs:77-83): `model.replace(value)`,
then update the existing child state against the now-`Some(value)` model. -/
def replace {V : Type} (impl : ValueImpl V) (dflt : V) (value : V) (m : Option V)
    (st : Field) (g : Nat) : Option V × Field × Nat × Option V :=
  let tmp := m
  let r := OptionState.update impl dflt st (some value) g
  (some value, r.1, r.2, tmp)

end OptionModifier

/-! ## Mapped storage adapters (src/yfb/src/state_model.rs)

A one-field record `Parent { name: String }` (as in the `test_owned_option`
test) gives the optional-unwrap adapter something concrete to navigate. -/

structure Parent where
  name : String
deriving Repr, DecidableEq

def Parent.default : Parent := { name := "" }

/-- Generated `ParentState` (yfb_derive `expand_state`): one `Field` per
model field. -/
structure ParentState where
  name : Field
deriving Repr, DecidableEq

namespace MappedOptionStateModel

/-- `MappedOptionStateModel::model` (state_model.rs:72-75): the contained
value when present, else a view of the internally-held `shadow` default. -/
def model {V : Type} (parent : Option V) (shadow : V) : V :=
  parent.getD shadow

/-- The model half of `MappedOptionStateModel::as_mut`
(state_model.rs:81-87): `get_or_insert_with(Default::default)` — the
parent's slot after the call, whose content is the mutable target. -/
def as_mut_model {V : Type} (parent : Option V) (dflt : V) : Option V :=
  some (parent.getD dflt)

/-- `binding.map_option().modifier().name().set(text)` on a root cell
holding `(Option Parent, ParentState)`: the optional adapter's `as_mut`
get-or-inserts `Parent::default()` into the slot, the generated
`ParentNameMapping` then navigates model and state to the `name` field, and
`FieldModifier::set` runs there (`String` parsing always succeeds).  Writes
through the mapped `RefMut`s land back in the parent slot. -/
def set_name_through (m : Option Parent) (st : ParentState) (g : Nat)
    (text : String) : Option Parent × ParentState × Nat :=
  let inner := m.getD Parent.default
  let r := FieldModifier.set stringImpl inner.name st.name g text
  (some { name := r.1 }, { name := r.2.1 }, r.2.2)

end MappedOptionStateModel

namespace MappedVecStateModel

/-- The debug assertions guarding `MappedVecStateModel::state`
(state_model.rs:118-121): the parent model's length is at most the retained
children's length, and `index <= model.len()`. -/
def stateAsserts {V : Type} (model : List V) (current : List Field)
    (index : Nat) : Bool :=
  (model.length ≤ current.length) && (index ≤ model.length)

/-- The debug assertion guarding `MappedVecStateModel::model`
(state_model.rs:113-116); the subsequent access is `&v[self.index]`. -/
def modelAsserts {V : Type} (model : List V) (current : List Field)
    (_index : Nat) : Bool :=
  model.length ≤ current.length

/-- The accesses the adapter performs after the assertions —
`&parent.model()[index]` and `&parent.state().current[index]` — are in
bounds. -/
def accessInBounds {V : Type} (model : List V) (current : List Field)
    (index : Nat) : Prop :=
  index < model.length ∧ index < current.length

instance {V : Type} (model : List V) (current : List Field) (index : Nat) :
    Decidable (accessInBounds model current index) := by
  unfold accessInBounds; infer_instance

end MappedVecStateModel

/-! ## BindingValidation and Binding equality (src/yfb/src/binding.rs)

`BindingValidation` is a tree of `Cell<bool>` nodes shared through `Rc`:
`Root(update_handle, Cell)` or `Child(Rc<parent>, Cell)`.  The `Rc` sharing
is embedded by a store of nodes addressed by `Nat` ids; a child is always
allocated after its parent, so a well-formed node's parent id is smaller
than its own. -/

structure VNode where
  /-- `none` for `Root`, `some parentId` for `Child`. -/
  parent : Option Nat
  valid : Bool
deriving Repr, DecidableEq

/-- The allocation store for `BindingValidation` nodes: ids below `next`
are allocated. -/
structure VStore where
  next : Nat
  nodes : Nat → VNode

/-- `BindingValidation::new` (binding.rs:28-30): a fresh `Root` with its
cell set to `true`. Returns the store and the new node's id. -/
def VStore.newRoot (s : VStore) : VStore × Nat :=
  ({ next := s.next + 1
     nodes := fun j => if j = s.next then ⟨none, true⟩ else s.nodes j }, s.next)

/-- `BindingValidation::from_parent` (binding.rs:32-34): a fresh `Child`
of `p` with its cell set to `true`. -/
def VStore.fromParent (s : VStore) (p : Nat) : VStore × Nat :=
  ({ next := s.next + 1
     nodes := fun j => if j = s.next then ⟨some p, true⟩ else s.nodes j }, s.next)

/-- `BindingValidation::invalidate` (binding.rs:36-47): set the node's own
cell to `false`; a `Root` additionally fires the host's `force_update`
signal (a no-op on the state embedded here), a `Child` recurses into its
parent.  In the Rust tree a parent is always allocated before its child, so
the recursion descends to smaller ids; the `p < i` guard encodes that
acyclicity for the termination argument. -/
def invalidateNodes (nodes : Nat → VNode) (i : Nat) : Nat → VNode :=
  let nodes' := fun j => if j = i then { nodes i with valid := false } else nodes j
  match (nodes i).parent with
  | some p => if _hp : p < i then invalidateNodes nodes' p else nodes'
  | none => nodes'
termination_by i

/-- A mutation through a modifier whose validation `Rc` points at node `i`:
`self.validation().invalidate()`. -/
def VStore.invalidate (s : VStore) (i : Nat) : VStore :=
  { s with nodes := invalidateNodes s.nodes i }

/-- `BindingValidation::valid` (binding.rs:49-53): the node's own cell. -/
def VStore.valid (s : VStore) (i : Nat) : Bool :=
  (s.nodes i).valid

/-- A `Binding<T>`: path name plus the `Rc<BindingValidation>` it holds
(the shared `state_model` pointer does not take part in equality and is
kept in the separate storage-cell embedding). -/
structure Binding where
  name : String
  node : Nat
deriving Repr, DecidableEq

/-- `PartialEq for Binding` (binding.rs:211-218):
`self.generation.valid() && other.generation.valid() && self.name == other.name`. -/
def Binding.eq (s : VStore) (b1 b2 : Binding) : Bool :=
  s.valid b1.node && s.valid b2.node && (b1.name == b2.name)

/-- `Binding::map` (binding.rs:171-180): derived child binding named
`"{parent}.{M::NAME}"` holding a fresh `Child` validation node. -/
def Binding.map (s : VStore) (b : Binding) (mappingName : String) :
    VStore × Binding :=
  let r := s.fromParent b.node
  (r.1, { name := b.name ++ "." ++ mappingName, node := r.2 })

/-- `Binding::modifier` (binding.rs:106-108) hands the modifier a clone of
the binding's own validation `Rc`; a generated record modifier's per-field
accessor (`Modifier::map`, modifier.rs:21-27) passes that same `Rc` on
unchanged.  So any mutation through a modifier obtained from binding `b`
invalidates exactly node `b.node` and its ancestors. -/
def Binding.mutate (s : VStore) (b : Binding) : VStore :=
  s.invalidate b.node

/-- The empty store: nothing allocated. Unallocated ids read as an
invalid root placeholder (never consulted by well-formed scenarios). -/
def VStore.empty : VStore :=
  { next := 0, nodes := fun _ => ⟨none, false⟩ }

/-! ## Generated record modifier and validation-on-drop
(src/yfb_derive/src/lib.rs, `expand_modifier`)

Instantiated, as in the claim's cited test, at a two-field record
`Rec { a: u32, b: u32 }` — the shape of `test_validation`'s model.  The
external `validator` collaborator is a parameter: `validate` returns `none`
for `Ok(())` and the `field_errors()` list (field name paired with its
errors, one entry per field name since `field_errors` is keyed by a map)
for `Err`. -/

structure RecModel where
  a : Nat
  b : Nat
deriving Repr, DecidableEq

/-- Generated `RecState` (`expand_state`). -/
structure RecState where
  a : Field
  b : Field
deriving Repr, DecidableEq

/-- Generated `Dirty for RecState`: `false | dirty(a) | dirty(b)`. -/
def RecState.dirty (s : RecState) : Bool :=
  false || s.a.dirty || s.b.dirty

/-- `validator::ValidationError`: only the optional message is consulted
by the generated code (`error.message.clone().map(|m| m.into())`). -/
structure ValidationError where
  message : Option String
deriving Repr, DecidableEq

/-- The per-field arm generated by `field_set_message`
(yfb_derive/src/lib.rs:213-222): fetch the field's modifier; only when that
field is dirty, set the first error's message on it.  Acts on one field's
state, threading the generation counter.  (The Rust `set_message` call goes
through `FieldModifier::set_message`, which also invalidates the binding
chain; the chain is embedded separately.) -/
def fieldSetMessage (st : Field) (errs : List ValidationError) (g : Nat) :
    Field × Nat :=
  if st.dirty then
    match errs.head? with
    | some e => st.set_message e.message g
    | none => (st, g)
  else
    (st, g)

/-- Generated `impl Drop for RecModifier` (yfb_derive/src/lib.rs:256-286):
return unless the validation chain is invalid and the record state is
dirty; run the external whole-record validation once; clear every field's
message; on failure walk `field_errors()` and apply `fieldSetMessage` to
each named field.  `chainValid` is `Modifier::validation(self).valid()`.
Returns (record state, generation counter, number of validate calls). -/
def dropRecModifier (validate : RecModel → Option (List (String × List ValidationError)))
    (chainValid : Bool) (m : RecModel) (st : RecState) (g : Nat) :
    RecState × Nat × Nat :=
  if chainValid then (st, g, 0)
  else if !st.dirty then (st, g, 0)
  else
    let validation := validate m
    let ra := st.a.set_message none g
    let rb := st.b.set_message none ra.2
    let st := { a := ra.1, b := rb.1 : RecState }
    match validation with
    | none => (st, rb.2, 1)
    | some errors =>
      let r := errors.foldl
        (fun (acc : RecState × Nat) fe =>
          match fe.1 with
          | "a" =>
            let ra := fieldSetMessage acc.1.a fe.2 acc.2
            ({ acc.1 with a := ra.1 }, ra.2)
          | "b" =>
            let rb := fieldSetMessage acc.1.b fe.2 acc.2
            ({ acc.1 with b := rb.1 }, rb.2)
          | _ => acc)
        (st, rb.2)
      (r.1, r.2, 1)

/-- The validation collaborator of the cited `test_validation` test:
field `a` carries `#[validate(range(min = 18, max = 20, message = "Not
within range"))]`, field `b` is unconstrained. -/
def validateC5 (m : RecModel) : Option (List (String × List ValidationError)) :=
  if 18 ≤ m.a ∧ m.a ≤ 20 then none
  else some [("a", [{ message := some "Not within range" }])]

end Yfb

namespace Yfb

/-! ## Helper lemmas -/

theorem field_set_value_value (f : Field) (v : String) (g : Nat) :
    (f.set_value v g).1.value = v := by
  unfold Field.set_value
  split
  · split <;> first | (split <;> simp_all) | simp_all
  · simp_all

theorem field_set_value_initial (f : Field) (v : String) (g : Nat) :
    (f.set_value v g).1.initial = f.initial := by
  unfold Field.set_value
  split
  · split <;> first | (split <;> simp_all) | simp_all
  · rfl

theorem field_set_value_error (f : Field) (v : String) (g : Nat) :
    (f.set_value v g).1.error = f.error := by
  unfold Field.set_value
  split
  · split <;> first | (split <;> simp_all) | simp_all
  · rfl

theorem field_set_error_fields (f : Field) (e : Option String) (g : Nat) :
    (f.set_error e g).1.error = e ∧ (f.set_error e g).1.value = f.value ∧
    (f.set_error e g).1.message = f.message ∧ (f.set_error e g).1.initial = f.initial := by
  unfold Field.set_error
  split <;> simp_all

theorem field_set_message_fields (f : Field) (m : Option String) (g : Nat) :
    (f.set_message m g).1.message = m ∧ (f.set_message m g).1.value = f.value ∧
    (f.set_message m g).1.error = f.error ∧ (f.set_message m g).1.initial = f.initial := by
  unfold Field.set_message
  split <;> simp_all

theorem field_set_message_message (f : Field) (m : Option String) (g : Nat) :
    (f.set_message m g).1.message = m :=
  (field_set_message_fields f m g).1

theorem field_set_message_dirty (f : Field) (m : Option String) (g : Nat) :
    (f.set_message m g).1.dirty = f.dirty := by
  unfold Field.dirty
  rw [(field_set_message_fields f m g).2.1, (field_set_message_fields f m g).2.2.2]

theorem zipUpdate_length (fs : List Field) (ms : List String) (g : Nat) :
    (zipUpdate fs ms g).1.length = fs.length := by
  induction fs generalizing ms g with
  | nil => simp [zipUpdate]
  | cons f fs ih =>
    cases ms with
    | nil => simp [zipUpdate]
    | cons m ms => simp [zipUpdate, ih]

theorem parse_error_message_nonempty (text typeName : String) :
    ("Invalid value '" ++ text ++ "' for type " ++ typeName) ≠ "" := by
  intro h
  have := congrArg String.length h
  simp [String.length_append] at this
  exact absurd this.1.1.1 (by decide)

theorem field_dirty_false (f : Field) (t : String) (h : f.initial = some t)
    (g : Nat) : ((f.update t g).1).dirty = false := by
  unfold Field.dirty Field.update
  rw [field_set_value_initial, field_set_value_value, h]
  simp

theorem field_roundtrip_dirty (t v : String) (g g1 g2 : Nat) :
    ((((Field.create t true g).update v g1).1).update t g2).1.dirty = false := by
  apply field_dirty_false
  simp [Field.update, field_set_value_initial, Field.create]

theorem field_refresh_dirty (t : String) (g g1 : Nat) :
    (((Field.create t true g).update t g1).1).dirty = false := by
  apply field_dirty_false
  simp [Field.create]

/-! ## Claims -/

/-- C4: for every leaf `FieldModifier::set(text)` call where parsing fails,
the model value is unchanged, the state's stored value text is unchanged,
`error()` becomes a non-empty message identifying the offending text and the
target type, and `message()` is unchanged. -/
theorem c4_parse_failure_isolation {V : Type} (impl : ValueImpl V) (m : V)
    (st : Field) (g : Nat) (text : String)
    (h : impl.fromValue text = none) :
    (FieldModifier.set impl m st g text).1 = m ∧
    (FieldModifier.set impl m st g text).2.1.value = st.value ∧
    (FieldModifier.set impl m st g text).2.1.message = st.message ∧
    (FieldModifier.set impl m st g text).2.1.error =
      some ("Invalid value '" ++ text ++ "' for type " ++ impl.typeName) ∧
    ("Invalid value '" ++ text ++ "' for type " ++ impl.typeName) ≠ "" := by
  unfold FieldModifier.set
  rw [h]
  refine ⟨rfl, ?_, ?_, ?_, parse_error_message_nonempty text impl.typeName⟩
  · exact (field_set_error_fields st _ g).2.1
  · exact (field_set_error_fields st _ g).2.2.1
  · exact (field_set_error_fields st _ g).1

/-- Witness for C4 at a concrete input: a `u32` field holding `7`, set to
the unparsable text `"abc"`. -/
theorem c4_parse_failure_isolation_witness :
    u32Impl.fromValue "abc" = none ∧
    (FieldModifier.set u32Impl 7 (Field.create "7" true 0) 0 "abc").1 = 7 ∧
    (FieldModifier.set u32Impl 7 (Field.create "7" true 0) 0 "abc").2.1.value = "7" ∧
    (FieldModifier.set u32Impl 7 (Field.create "7" true 0) 0 "abc").2.1.message = none ∧
    (FieldModifier.set u32Impl 7 (Field.create "7" true 0) 0 "abc").2.1.error =
      some ("Invalid value '" ++ "abc" ++ "' for type " ++ u32Impl.typeName) := by
  have h : u32Impl.fromValue "abc" = none := by decide
  have := c4_parse_failure_isolation u32Impl 7 (Field.create "7" true 0) 0 "abc" h
  exact ⟨h, this.1, by rw [this.2.1]; rfl, by rw [this.2.2.1]; rfl, this.2.2.2.1⟩

/-- C3 is a code bug: `FieldModifier::set`'s success branch writes the
parsed value into the model and the text into the state, but never clears a
stale parse error — no code path calls `set_error(None)`.  Evaluating the
embedded code: on a `u32` field, a failed `set("abc")` followed by a
successful `set("42")` leaves `error()` still set, where the claim (and the
spec's §7) require `None`. -/
theorem c3_stale_error_persists :
    (FieldModifier.set u32Impl
      (FieldModifier.set u32Impl 0 (Field.create "0" true 0) 0 "abc").1
      (FieldModifier.set u32Impl 0 (Field.create "0" true 0) 0 "abc").2.1
      (FieldModifier.set u32Impl 0 (Field.create "0" true 0) 0 "abc").2.2
      "42").1 = 42 ∧
    (FieldModifier.set u32Impl
      (FieldModifier.set u32Impl 0 (Field.create "0" true 0) 0 "abc").1
      (FieldModifier.set u32Impl 0 (Field.create "0" true 0) 0 "abc").2.1
      (FieldModifier.set u32Impl 0 (Field.create "0" true 0) 0 "abc").2.2
      "42").2.1.value = "42" ∧
    (FieldModifier.set u32Impl
      (FieldModifier.set u32Impl 0 (Field.create "0" true 0) 0 "abc").1
      (FieldModifier.set u32Impl 0 (Field.create "0" true 0) 0 "abc").2.1
      (FieldModifier.set u32Impl 0 (Field.create "0" true 0) 0 "abc").2.2
      "42").2.1.error = some "Invalid value 'abc' for type u32" := by
  decide

/-- C7: for every `VecState`, after `create` and after every
`update(model)` call, `valid_length` equals the model's length, and the
retained children count `current.len()` is at least `valid_length`. -/
theorem c7_length_sync :
    (∀ (model : List String) (wi : Bool) (g : Nat),
      (VecState.create model wi g).valid_length = model.length ∧
      (VecState.create model wi g).valid_length ≤
        (VecState.create model wi g).current.length) ∧
    (∀ (s : VecState) (model : List String) (g : Nat),
      (s.update model g).1.valid_length = model.length ∧
      (s.update model g).1.valid_length ≤ (s.update model g).1.current.length) := by
  constructor
  · intro model wi g
    simp [VecState.create]
  · intro s model g
    simp only [VecState.update, zipUpdate_length]
    refine ⟨by trivial, ?_⟩
    split_ifs with h
    · simp only [List.length_take, List.length_append, List.length_map,
        List.length_drop]
      omega
    · simp only [List.length_append, List.length_map, List.length_drop]
      omega

/-- C10: `OptionModifier::take` (and `replace`) update the existing child
state in place against the default (resp. new) value: the leaf `Field`
keeps its initial snapshot, and after `take()` a field with initial
tracking is dirty exactly when the default value's text differs from that
snapshot. -/
theorem c10_take_updates_in_place {V : Type} (impl : ValueImpl V) (dflt : V)
    (m : Option V) (st : Field) (g : Nat) (s0 : String)
    (h : st.initial = some s0) :
    (OptionModifier.take impl dflt m st g).1 = none ∧
    (OptionModifier.take impl dflt m st g).2.2.2 = m ∧
    (OptionModifier.take impl dflt m st g).2.1.initial = some s0 ∧
    (OptionModifier.take impl dflt m st g).2.1.value = impl.toValue dflt ∧
    ((OptionModifier.take impl dflt m st g).2.1.dirty = true ↔
      impl.toValue dflt ≠ s0) ∧
    (∀ v : V, (OptionModifier.replace impl dflt v m st g).2.1.initial = some s0 ∧
      (OptionModifier.replace impl dflt v m st g).2.1.value = impl.toValue v) := by
  unfold OptionModifier.take OptionModifier.replace OptionState.update Field.update
  refine ⟨rfl, rfl, ?_, ?_, ?_, ?_⟩
  · simp [field_set_value_initial, h]
  · simp [field_set_value_value]
  · unfold Field.dirty
    rw [field_set_value_initial, field_set_value_value, h]
    simp [ne_comm]
  · intro v
    exact ⟨by simp [field_set_value_initial, h], by simp [field_set_value_value]⟩

/-- Witness for C10 at a concrete input: an optional `u32` holding `5`,
whose field state was created with initial tracking from `"5"`; after
`take()` the default text `"0"` differs from the snapshot, so the field is
dirty. -/
theorem c10_take_updates_in_place_witness :
    (Field.create "5" true 0).initial = some "5" ∧
    (OptionModifier.take u32Impl 0 (some 5) (Field.create "5" true 0) 0).1 = none ∧
    (OptionModifier.take u32Impl 0 (some 5) (Field.create "5" true 0) 0).2.1.initial
      = some "5" ∧
    ((OptionModifier.take u32Impl 0 (some 5) (Field.create "5" true 0) 0).2.1.dirty
      = true ↔ u32Impl.toValue 0 ≠ "5") := by
  have h : (Field.create "5" true 0).initial = some "5" := rfl
  have := c10_take_updates_in_place u32Impl 0 (some 5) (Field.create "5" true 0) 0 "5" h
  exact ⟨h, this.1, this.2.2.1, this.2.2.2.2.1⟩

/-- C8: the optional-unwrap adapter reads the contained value when present
and a view of the internally-held transient default when absent; mutable
access get-or-inserts `T::default()` into a `None` parent slot, so a leaf
`set` through a `map_option` binding of an absent optional makes the parent
model `Some` with that leaf set, and subsequent reads reflect it. -/
theorem c8_option_unwrap_adapter :
    (∀ (V : Type) (v shadow : V), MappedOptionStateModel.model (some v) shadow = v) ∧
    (∀ (V : Type) (shadow : V),
      MappedOptionStateModel.model (none : Option V) shadow = shadow) ∧
    (∀ (V : Type) (dflt : V),
      MappedOptionStateModel.as_mut_model (none : Option V) dflt = some dflt) ∧
    (∀ (st : ParentState) (g : Nat) (text : String) (shadow : Parent),
      (MappedOptionStateModel.set_name_through none st g text).1 =
        some { name := text } ∧
      (MappedOptionStateModel.set_name_through none st g text).2.1.name.value = text ∧
      (MappedOptionStateModel.model
        (MappedOptionStateModel.set_name_through none st g text).1 shadow).name
        = text) := by
  refine ⟨fun V v s => rfl, fun V s => rfl, fun V d => rfl, ?_⟩
  intro st g text shadow
  unfold MappedOptionStateModel.set_name_through FieldModifier.set
    MappedOptionStateModel.model
  simp [stringImpl, field_set_value_value]

/-- C6: for a `VecState` created with initial tracking from a 3-element
model: after an update to a 2-element model, 3 state entries are retained
and `dirty()` is true; after updating back to the original 3-element model,
`dirty()` is false and none of the three children is dirty. -/
theorem c6_list_retention (a b c x y : String) (g : Nat) :
    (VecState.create [a, b, c] true g |>.update [x, y] g).1.current.length = 3 ∧
    (VecState.create [a, b, c] true g |>.update [x, y] g).1.dirty = true ∧
    (((VecState.create [a, b, c] true g |>.update [x, y] g).1.update [a, b, c]
        (VecState.create [a, b, c] true g |>.update [x, y] g).2).1.dirty = false) ∧
    (∀ f ∈ ((VecState.create [a, b, c] true g |>.update [x, y] g).1.update [a, b, c]
        (VecState.create [a, b, c] true g |>.update [x, y] g).2).1.current,
      f.dirty = false) := by
  simp only [VecState.create, VecState.update, VecState.dirty, List.map_cons,
    List.map_nil, List.length_cons, List.length_nil, zipUpdate]
  norm_num [List.take_succ_cons, List.take_zero, List.take_nil, List.any_cons,
    List.any_nil, List.forall_mem_cons, field_roundtrip_dirty, field_refresh_dirty,
    List.drop, List.append]

/-- C9 is a code bug: the list-index adapter's debug assertions use
`index <= model.len()` (not `<`), so at `index = model.len()` — here a
1-element model with 1 retained child state and index 1 — every assertion
passes while both the model access `&v[index]` and the state access
`&v.current[index]` are out of bounds. -/
theorem c9_assert_allows_out_of_bounds :
    MappedVecStateModel.stateAsserts ["a"] [Field.create "a" true 0] 1 = true ∧
    MappedVecStateModel.modelAsserts ["a"] [Field.create "a" true 0] 1 = true ∧
    ¬ MappedVecStateModel.accessInBounds ["a"] [Field.create "a" true 0] 1 := by
  decide

/-- Counterexample to C1 as stated: for the two-field record of
`test_binding_eq`, the binding for sibling field `b` derived before a
mutation of field `a` through `a`'s modifier compares EQUAL — not unequal —
to a same-named `b` binding derived after the mutation: `invalidate` only
marks the mutated node and its ancestors, and `valid()` reads only a
binding's own cell, so the sibling's cell stays `true`. -/
theorem c1_sibling_counterexample :
    (let s0 := VStore.empty
     let a0 := s0.newRoot
     let root : Binding := { name := "model", node := a0.2 }
     let aB := Binding.map a0.1 root "b"
     let aA := Binding.map aB.1 root "a"
     let sMut := Binding.mutate aA.1 aA.2
     let a1 := sMut.newRoot
     let root2 : Binding := { name := "model", node := a1.2 }
     let bB := Binding.map a1.1 root2 "b"
     Binding.eq bB.1 aB.2 bB.2 = true) := by
  simp [VStore.empty, VStore.newRoot, VStore.fromParent, VStore.invalidate,
    Binding.map, Binding.mutate, Binding.eq, VStore.valid, invalidateNodes]

/-- C1 amended: after a mutation of field Y through Y's modifier, the
sibling X binding derived before the mutation still compares EQUAL to a
same-named X binding derived afterwards (invalidation marks only the
mutated binding's node and its ancestors); Y's own binding and the root
binding compare unequal across the mutation; and two X bindings freshly
re-derived with no intervening mutation compare equal. -/
theorem c1_sibling_invalidation (n x y : String) :
    (let s0 := VStore.empty
     let a0 := s0.newRoot
     let root : Binding := { name := n, node := a0.2 }
     let aX := Binding.map a0.1 root x
     let aY := Binding.map aX.1 root y
     let sMut := Binding.mutate aY.1 aY.2
     let a1 := sMut.newRoot
     let root2 : Binding := { name := n, node := a1.2 }
     let bX := Binding.map a1.1 root2 x
     let bY := Binding.map bX.1 root2 y
     let cX := Binding.map bY.1 root2 x
     Binding.eq bY.1 aX.2 bX.2 = true ∧
     Binding.eq bY.1 aY.2 bY.2 = false ∧
     Binding.eq bY.1 root root2 = false ∧
     Binding.eq cX.1 bX.2 cX.2 = true) := by
  simp [VStore.empty, VStore.newRoot, VStore.fromParent, VStore.invalidate,
    Binding.map, Binding.mutate, Binding.eq, VStore.valid, invalidateNodes]

/-- Counterexample to C2 as stated: two independently-created root
sessions (each with its own freshly-allocated validation object) with
identical names DO compare equal while both are valid — `PartialEq`
(binding.rs:211-218) compares only the two validity flags and the names,
never the identity of the invalidation objects.  (The cited
`test_binding_eq` itself asserts such a cross-session equality:
`assert_eq!(a_binding, new_a_binding)`.) -/
theorem c2_cross_session_counterexample :
    (let a := VStore.empty.newRoot
     let b := a.1.newRoot
     Binding.eq b.1 { name := "model", node := a.2 } { name := "model", node := b.2 }
       = true) := by
  simp [VStore.empty, VStore.newRoot, Binding.eq, VStore.valid]

/-- C2 amended: a binding of one session compares equal to the same-named
binding of an independently-created session exactly while both are still
valid; it compares unequal once either side has been invalidated (the
fresh invalidation object isolates sessions only through invalidation, not
through identity). -/
theorem c2_cross_session_equality (s : VStore) (n : String) :
    (let a := s.newRoot
     let b := a.1.newRoot
     let b1 : Binding := { name := n, node := a.2 }
     let b2 : Binding := { name := n, node := b.2 }
     Binding.eq b.1 b1 b2 = true ∧
     Binding.eq (Binding.mutate b.1 b1) b1 b2 = false) := by
  simp [VStore.newRoot, Binding.eq, VStore.valid, Binding.mutate,
    VStore.invalidate, invalidateNodes]

/-- Counterexample to C5 as stated: dropping the record modifier with the
chain invalid and the record dirty (field `b` was set to `"42"`), the
whole-record validation fails naming field `a`; yet `a` receives NO
message, because the generated `field_set_message` arm only sets the
message when the named field is itself dirty — and `a` still holds its
initial value.  (The cited `test_validation` asserts exactly this:
`a.message() == None` after `b().set("42")`.) -/
theorem c5_nondirty_field_counterexample :
    (let m : RecModel := { a := 0, b := 42 }
     let st : RecState :=
       { a := Field.create "0" true 0
         b := ((Field.create "0" true 0).set_value "42" 0).1 }
     validateC5 m = some [("a", [{ message := some "Not within range" }])] ∧
     st.dirty = true ∧
     (dropRecModifier validateC5 false m st 0).1.a.message = none) := by
  decide

/-- C5 amended: when a record modifier is dropped with its chain invalid
and the record dirty, whole-record validation runs exactly once; every
field's message is first cleared; on validation failure the first error's
message is set on each field named in the failure list that is itself
dirty, while listed fields that are not dirty are left with no message. -/
theorem c5_validation_on_drop
    (validate : RecModel → Option (List (String × List ValidationError)))
    (m : RecModel) (st : RecState) (g : Nat) (aErrs bErrs : List ValidationError)
    (hdirty : st.dirty = true)
    (hv : validate m = none ∨ validate m = some [("a", aErrs), ("b", bErrs)]) :
    (dropRecModifier validate false m st g).2.2 = 1 ∧
    (dropRecModifier validate false m st g).1.a.message =
      (match validate m with
       | none => none
       | some _ => if st.a.dirty then (match aErrs.head? with
           | some e => e.message
           | none => none) else none) ∧
    (dropRecModifier validate false m st g).1.b.message =
      (match validate m with
       | none => none
       | some _ => if st.b.dirty then (match bErrs.head? with
           | some e => e.message
           | none => none) else none) := by
  rcases hv with hv | hv
  · unfold dropRecModifier
    rw [hv]
    simp only [hdirty, Bool.not_true, Bool.false_eq_true, if_false]
    exact ⟨by trivial, by simp [field_set_message_message],
      by simp [field_set_message_message]⟩
  · unfold dropRecModifier
    rw [hv]
    simp only [hdirty, Bool.not_true, Bool.false_eq_true, if_false, List.foldl]
    unfold fieldSetMessage
    simp only [field_set_message_dirty]
    refine ⟨by trivial, ?_, ?_⟩
    · by_cases ha : st.a.dirty
      · cases aErrs with
        | nil => simp [ha, field_set_message_message]
        | cons e es => simp [ha, field_set_message_message]
      · simp [ha, field_set_message_message]
    · by_cases hb : st.b.dirty
      · cases bErrs with
        | nil => simp [hb, field_set_message_message]
        | cons e es => simp [hb, field_set_message_message]
      · simp [hb, field_set_message_message]

/-- Witness for the amended C5 at a concrete input: a record with field
`a` dirty (initial `"0"`, value `"1"`) and `b` clean, and a validator
naming both fields (with `b`'s error list empty): `a` receives the first
error's message, `b` none, and validation ran once. -/
theorem c5_validation_on_drop_witness :
    (RecState.dirty
      { a := ((Field.create "0" true 0).set_value "1" 0).1
        b := Field.create "0" true 0 } = true) ∧
    ((dropRecModifier (fun _ => some [("a", [{ message := some "msg" }]), ("b", [])])
      false { a := 0, b := 0 }
      { a := ((Field.create "0" true 0).set_value "1" 0).1
        b := Field.create "0" true 0 } 0).2.2 = 1 ∧
     (dropRecModifier (fun _ => some [("a", [{ message := some "msg" }]), ("b", [])])
      false { a := 0, b := 0 }
      { a := ((Field.create "0" true 0).set_value "1" 0).1
        b := Field.create "0" true 0 } 0).1.a.message =
      (match (fun (_ : RecModel) => some [("a", [({ message := some "msg" } : ValidationError)]), ("b", [])]) ({ a := 0, b := 0 } : RecModel) with
       | none => none
       | some _ => if ((Field.create "0" true 0).set_value "1" 0).1.dirty then
           (match [({ message := some "msg" } : ValidationError)].head? with
            | some e => e.message
            | none => none) else none) ∧
     (dropRecModifier (fun _ => some [("a", [{ message := some "msg" }]), ("b", [])])
      false { a := 0, b := 0 }
      { a := ((Field.create "0" true 0).set_value "1" 0).1
        b := Field.create "0" true 0 } 0).1.b.message =
      (match (fun (_ : RecModel) => some [("a", [({ message := some "msg" } : ValidationError)]), ("b", [])]) ({ a := 0, b := 0 } : RecModel) with
       | none => none
       | some _ => if (Field.create "0" true 0).dirty then
           (match ([] : List ValidationError).head? with
            | some e => e.message
            | none => none) else none)) :=
  ⟨by decide,
   c5_validation_on_drop
     (fun _ => some [("a", [{ message := some "msg" }]), ("b", [])])
     { a := 0, b := 0 }
     { a := ((Field.create "0" true 0).set_value "1" 0).1
       b := Field.create "0" true 0 } 0
     [{ message := some "msg" }] []
     (by decide) (Or.inr rfl)⟩

end Yfb
